import Mathlib

/-!
Shallow embedding of the statbox synthetic-data generator
covering the file src/tools/generate_data.py and the legacy top-level
script src/generate_synthetic_medical_data.py.

Modelling conventions.
* Machine floats are idealised as real numbers.  Configuration parameters,
  which scipy compares against domain bounds, are rationals so that the
  comparisons stay decidable and the pipeline stays evaluable.
* The numpy global random stream is modelled abstractly: drawing one
  variate of a given distribution family advances an abstract position
  counter by one, and the value drawn is an abstract stream function of
  the seed, the position and the family parameters.  The call
  np.random.seed resets the global state to position zero for the given
  seed.
* scipy raises ValueError for out-of-domain distribution arguments before
  drawing (modelled as GenError.domainError); numpy raises ValueError for
  a negative requested size (GenError.negativeDimensions).  An exception
  propagates to the caller; the global stream position reached when the
  exception is raised is part of the returned state, mirroring the shared
  numpy generator surviving the exception.
-/

/-- Errors raised by the underlying numpy / scipy sampling routines. -/
inductive GenError where
  | domainError
  | negativeDimensions
deriving DecidableEq

/-- Sequencing of sampling steps: an exception propagates and freezes the
stream position, otherwise the continuation runs from the new position. -/
def stepBind {α β : Type} (x : Except GenError α × ℕ)
    (f : α → ℕ → Except GenError β × ℕ) : Except GenError β × ℕ :=
  match x with
  | (Except.error e, p) => (Except.error e, p)
  | (Except.ok a, p) => f a p

/-- Model of np.random.normal(0, 1, n): numpy raises for a negative size,
otherwise returns n standard-normal draws from the global stream. -/
def npRandomNormal (stdNorm : ℕ → ℕ → ℝ) (seed pos : ℕ) (n : ℤ) :
    Except GenError (List ℝ) × ℕ :=
  if n < 0 then (Except.error GenError.negativeDimensions, pos)
  else (Except.ok ((List.range n.toNat).map fun i => stdNorm seed (pos + i)),
        pos + n.toNat)

/-- Model of scipy norm.rvs(loc, scale, size): scipy rejects a negative
scale, numpy rejects a negative size, otherwise each draw is a standard
normal rescaled by scale and shifted by loc. -/
def normRvs (stdNorm : ℕ → ℕ → ℝ) (seed pos : ℕ) (loc scale : ℚ) (size : ℤ) :
    Except GenError (List ℝ) × ℕ :=
  if scale < 0 then (Except.error GenError.domainError, pos)
  else if size < 0 then (Except.error GenError.negativeDimensions, pos)
  else (Except.ok ((List.range size.toNat).map fun i =>
          stdNorm seed (pos + i) * (scale : ℝ) + (loc : ℝ)),
        pos + size.toNat)

/-- Model of scipy gamma.rvs(a, scale, size): the shape must be positive
and the scale non-negative (scipy condition a > 0 and scale >= 0),
otherwise a domain error is raised; each draw is a standard gamma variate
of shape a rescaled by scale. -/
def gammaRvs (gammaStd : ℚ → ℕ → ℕ → ℝ) (seed pos : ℕ) (a scale : ℚ)
    (size : ℤ) : Except GenError (List ℝ) × ℕ :=
  if 0 < a ∧ 0 ≤ scale then
    if size < 0 then (Except.error GenError.negativeDimensions, pos)
    else (Except.ok ((List.range size.toNat).map fun i =>
            gammaStd a seed (pos + i) * (scale : ℝ)),
          pos + size.toNat)
  else (Except.error GenError.domainError, pos)

/-- Model of scipy binom.rvs(n=1, p, size): the probability must lie in
the unit interval, otherwise a domain error is raised; each draw is a
Bernoulli variate of parameter p. -/
def binomRvs (bern : ℚ → ℕ → ℕ → ℝ) (seed pos : ℕ) (p : ℚ) (size : ℤ) :
    Except GenError (List ℝ) × ℕ :=
  if 0 ≤ p ∧ p ≤ 1 then
    if size < 0 then (Except.error GenError.negativeDimensions, pos)
    else (Except.ok ((List.range size.toNat).map fun i => bern p seed (pos + i)),
          pos + size.toNat)
  else (Except.error GenError.domainError, pos)

/-- Model of numpy astype(int) on a float: truncation toward zero. -/
noncomputable def astypeInt (x : ℝ) : ℝ :=
  if x < 0 then ((Int.ceil x : ℤ) : ℝ) else ((Int.floor x : ℤ) : ℝ)

/-- generate_correlated_variables from src/tools/generate_data.py: two
blocks of standard-normal draws x1 and x2, the second recombined as
correlation * x1 + sqrt(1 - correlation ^ 2) * x2, then both rescaled to
the requested means and standard deviations. -/
noncomputable def generate_correlated_variables (stdNorm : ℕ → ℕ → ℝ)
    (seed pos : ℕ) (n : ℤ) (mean1 std1 mean2 std2 correlation : ℝ) :
    Except GenError (List ℝ × List ℝ) × ℕ :=
  stepBind (npRandomNormal stdNorm seed pos n) (fun x1 pos1 =>
    stepBind (npRandomNormal stdNorm seed pos1 n) (fun x2 pos2 =>
      (Except.ok
        ((x1.map fun x => x * std1 + mean1),
         ((List.zipWith
            (fun a b => correlation * a + Real.sqrt (1 - correlation ^ 2) * b)
            x1 x2).map fun x => x * std2 + mean2)),
       pos2)))

/-- The optional correlated-pair request handed to generate_synthetic_data:
the Python dict with keys var1{name, mean, std}, var2{name, mean, std} and
correlation. -/
structure CorrVarSpec where
  name1 : String
  mean1 : ℚ
  std1 : ℚ
  name2 : String
  mean2 : ℚ
  std2 : ℚ
  correlation : ℚ
deriving DecidableEq

/-- The argument list of generate_synthetic_data in
src/tools/generate_data.py, in source order.  Optional arguments whose
Python default is None are Options; the numeric defaults of the script are
spelled out at each concrete use site. -/
structure Config where
  num_samples : ℤ
  age_params : ℚ × ℚ
  weight_params : ℚ × ℚ
  length_of_stay_params : ℚ × ℚ
  comorbidity_list : Option (List String)
  comorbidity_prevalences : Option (List ℚ)
  survival_shape : ℚ
  survival_scale : ℚ
  correlated_vars : Option CorrVarSpec
  random_seed : ℕ
deriving DecidableEq

/-- The comorbidity name list after the None default is filled in. -/
def comorbNames (cfg : Config) : List String :=
  cfg.comorbidity_list.getD ["diabetes", "hypertension", "cancer"]

/-- The comorbidity prevalence list after the None default is filled in. -/
def comorbPrevs (cfg : Config) : List ℚ :=
  cfg.comorbidity_prevalences.getD [mkRat 2 10, mkRat 3 10, mkRat 1 20]

/-- The name and prevalence lists zipped as the Python for loop does:
surplus entries of the longer list are dropped. -/
def zipComorbs (cfg : Config) : List (String × ℚ) :=
  List.zip (comorbNames cfg) (comorbPrevs cfg)

/-- Assignment data_dict[k] = v on a Python dict rendered as an
insertion-ordered association list: an existing key keeps its position and
its value is replaced, a new key is appended. -/
def dictInsert (d : List (String × List ℝ)) (k : String) (v : List ℝ) :
    List (String × List ℝ) :=
  if d.any (fun kv => kv.1 == k) then
    d.map (fun kv => if kv.1 == k then (k, v) else kv)
  else d ++ [(k, v)]

/-- The comorbidity sampling loop: one binom.rvs call per zipped
(name, prevalence) pair, each column assigned into the dict in turn. -/
def addComorbidities (bern : ℚ → ℕ → ℕ → ℝ) (seed : ℕ) (size : ℤ) :
    List (String × ℚ) → List (String × List ℝ) → ℕ →
    Except GenError (List (String × List ℝ)) × ℕ
  | [], d, pos => (Except.ok d, pos)
  | (name, p) :: rest, d, pos =>
      stepBind (binomRvs bern seed pos p size) (fun col pos2 =>
        addComorbidities bern seed size rest (dictInsert d name col) pos2)

/-- Model of np.random.seed: the global generator state (seed and stream
position) is replaced, whatever it was before. -/
def npSeed (seed : ℕ) (_g : ℕ × ℕ) : ℕ × ℕ := (seed, 0)

/-- The sampling pipeline of generate_synthetic_data in
src/tools/generate_data.py after the seed reset, in source order:
correlated pair or independent age and weight, then length of stay, then
the comorbidity loop, then survival time, then the event indicator. -/
noncomputable def generate_body (stdNorm : ℕ → ℕ → ℝ)
    (gammaStd : ℚ → ℕ → ℕ → ℝ) (bern : ℚ → ℕ → ℕ → ℝ) (seed : ℕ)
    (cfg : Config) : Except GenError (List (String × List ℝ)) × ℕ :=
  stepBind
    (stepBind
      (stepBind
        (stepBind
          (match cfg.correlated_vars with
           | some cv =>
               stepBind
                 (generate_correlated_variables stdNorm seed 0 cfg.num_samples
                   (cv.mean1 : ℝ) (cv.std1 : ℝ) (cv.mean2 : ℝ) (cv.std2 : ℝ)
                   (cv.correlation : ℝ))
                 (fun vv pos =>
                   (Except.ok
                     (dictInsert (dictInsert [] cv.name1 vv.1) cv.name2 vv.2),
                    pos))
           | none =>
               stepBind
                 (normRvs stdNorm seed 0 cfg.age_params.1 cfg.age_params.2
                   cfg.num_samples)
                 (fun ageRaw pos =>
                   stepBind
                     (normRvs stdNorm seed pos cfg.weight_params.1
                       cfg.weight_params.2 cfg.num_samples)
                     (fun wcol pos2 =>
                       (Except.ok
                         (dictInsert
                           (dictInsert [] "age" (ageRaw.map astypeInt))
                           "weight" wcol),
                        pos2))))
          (fun d pos =>
            stepBind
              (gammaRvs gammaStd seed pos cfg.length_of_stay_params.1
                cfg.length_of_stay_params.2 cfg.num_samples)
              (fun los pos2 =>
                (Except.ok (dictInsert d "length_of_stay" los), pos2))))
        (fun d pos =>
          addComorbidities bern seed cfg.num_samples (zipComorbs cfg) d pos))
      (fun d pos =>
        stepBind
          (gammaRvs gammaStd seed pos cfg.survival_shape cfg.survival_scale
            cfg.num_samples)
          (fun sv pos2 =>
            (Except.ok (dictInsert d "survival_time" sv), pos2))))
    (fun d pos =>
      stepBind (binomRvs bern seed pos (mkRat 3 10) cfg.num_samples)
        (fun ev pos2 =>
          (Except.ok (dictInsert d "event_occurred" ev), pos2)))

/-- generate_synthetic_data from src/tools/generate_data.py: reset the
global generator with np.random.seed(cfg.random_seed), run the sampling
pipeline, and hand back the assembled table (the pandas DataFrame built
from the insertion-ordered dict) together with the final global state. -/
noncomputable def generate_synthetic_data (stdNorm : ℕ → ℕ → ℝ)
    (gammaStd : ℚ → ℕ → ℕ → ℝ) (bern : ℚ → ℕ → ℕ → ℝ) (g : ℕ × ℕ)
    (cfg : Config) :
    Except GenError (List (String × List ℝ)) × (ℕ × ℕ) :=
  ((generate_body stdNorm gammaStd bern (npSeed cfg.random_seed g).1 cfg).1,
   ((npSeed cfg.random_seed g).1,
    (generate_body stdNorm gammaStd bern (npSeed cfg.random_seed g).1 cfg).2))

namespace Legacy

/-- generate_synthetic_data from the legacy top-level script
src/generate_synthetic_medical_data.py: same samplers and sampling order
(age, weight, length of stay, comorbidities, survival time, event
indicator, no correlated pair), but the DataFrame is assembled with the
five fixed columns first and the comorbidity columns inserted afterwards. -/
noncomputable def generate_synthetic_data (stdNorm : ℕ → ℕ → ℝ)
    (gammaStd : ℚ → ℕ → ℕ → ℝ) (bern : ℚ → ℕ → ℕ → ℝ) (g : ℕ × ℕ)
    (num_samples : ℤ) (age_params weight_params length_of_stay_params : ℚ × ℚ)
    (comorbidity_list : Option (List String))
    (comorbidity_prevalences : Option (List ℚ))
    (survival_shape survival_scale : ℚ) (random_seed : ℕ) :
    Except GenError (List (String × List ℝ)) × ℕ :=
  stepBind
    (normRvs stdNorm (npSeed random_seed g).1 (npSeed random_seed g).2
      age_params.1 age_params.2 num_samples)
    (fun ageRaw pos =>
      stepBind
        (normRvs stdNorm (npSeed random_seed g).1 pos weight_params.1
          weight_params.2 num_samples)
        (fun wcol pos2 =>
          stepBind
            (gammaRvs gammaStd (npSeed random_seed g).1 pos2
              length_of_stay_params.1 length_of_stay_params.2 num_samples)
            (fun los pos3 =>
              stepBind
                (addComorbidities bern (npSeed random_seed g).1 num_samples
                  (List.zip
                    (comorbidity_list.getD ["diabetes", "hypertension", "cancer"])
                    (comorbidity_prevalences.getD [mkRat 2 10, mkRat 3 10, mkRat 1 20]))
                  [] pos3)
                (fun comorbData pos4 =>
                  stepBind
                    (gammaRvs gammaStd (npSeed random_seed g).1 pos4
                      survival_shape survival_scale num_samples)
                    (fun sv pos5 =>
                      stepBind
                        (binomRvs bern (npSeed random_seed g).1 pos5 (mkRat 3 10)
                          num_samples)
                        (fun ev pos6 =>
                          (Except.ok
                            (comorbData.foldl
                              (fun acc kv => dictInsert acc kv.1 kv.2)
                              (dictInsert
                                (dictInsert
                                  (dictInsert
                                    (dictInsert
                                      (dictInsert [] "age"
                                        (ageRaw.map astypeInt))
                                      "weight" wcol)
                                    "length_of_stay" los)
                                  "survival_time" sv)
                                "event_occurred" ev)),
                           pos6)))))))

end Legacy

/-- The validity domain actually enforced by the scipy and numpy calls the
pipeline makes: non-negative sample count, non-negative normal scales when
age and weight are sampled independently, positive gamma shapes with
non-negative gamma scales, and every zipped prevalence in the unit
interval. -/
def validConfig (cfg : Config) : Prop :=
  0 ≤ cfg.num_samples
  ∧ (cfg.correlated_vars = none →
      0 ≤ cfg.age_params.2 ∧ 0 ≤ cfg.weight_params.2)
  ∧ 0 < cfg.length_of_stay_params.1 ∧ 0 ≤ cfg.length_of_stay_params.2
  ∧ 0 < cfg.survival_shape ∧ 0 ≤ cfg.survival_scale
  ∧ ∀ pr ∈ zipComorbs cfg, 0 ≤ pr.2 ∧ pr.2 ≤ 1

instance validConfigDecidable (cfg : Config) : Decidable (validConfig cfg) := by
  unfold validConfig
  exact inferInstance

/-- The field names the success path of the pipeline writes, in write
order. -/
def expectedFields (cfg : Config) : List String :=
  (match cfg.correlated_vars with
   | some cv => [cv.name1, cv.name2]
   | none => ["age", "weight"]) ++
  "length_of_stay" :: ((zipComorbs cfg).map Prod.fst ++
    ["survival_time", "event_occurred"])

/-- The header of a generation result: field names in column order, none
when the call raised. -/
def resultFields : Except GenError (List (String × List ℝ)) → Option (List String)
  | Except.ok out => some (out.map Prod.fst)
  | Except.error _ => none

/-- The column stored under a given field name in a generation result. -/
def resultColumn (k : String) :
    Except GenError (List (String × List ℝ)) → Option (List ℝ)
  | Except.ok out => List.lookup k out
  | Except.error _ => none

/-- Degenerate standard-normal stream used to instantiate witnesses. -/
def zeroNorm : ℕ → ℕ → ℝ := fun _ _ => 0

/-- Degenerate standard-gamma stream used to instantiate witnesses. -/
def zeroGamma : ℚ → ℕ → ℕ → ℝ := fun _ _ _ => 0

/-- Degenerate Bernoulli stream used to instantiate witnesses. -/
def oneBern : ℚ → ℕ → ℕ → ℝ := fun _ _ _ => 1

/-- A small valid configuration with the script defaults and one sample. -/
def cfgDefault : Config :=
  ⟨1, (60, 10), (70, 15), (2, 2), none, none, 2, 5, none, 42⟩

/-- cfgDefault with the survival gamma shape set to the invalid value 0. -/
def cfgBadSurvivalShape : Config :=
  ⟨1, (60, 10), (70, 15), (2, 2), none, none, 0, 5, none, 42⟩

/-- cfgDefault with the survival gamma scale set to 0, which scipy
accepts. -/
def cfgZeroSurvivalScale : Config :=
  ⟨1, (60, 10), (70, 15), (2, 2), none, none, 2, 0, none, 42⟩

/-- A valid configuration whose single comorbidity name collides with the
reserved field length_of_stay. -/
def cfgComorbClash : Config :=
  ⟨1, (60, 10), (70, 15), (2, 2), some ["length_of_stay"], some [mkRat 1 2],
   2, 5, none, 42⟩

/-- A valid configuration requesting a correlated pair. -/
def cfgPair : Config :=
  ⟨1, (60, 10), (70, 15), (2, 2), none, none, 2, 5,
   some ⟨"sbp", 120, 10, "dbp", 80, 8, mkRat 1 2⟩, 42⟩

/-- A valid configuration with two comorbidity names but only one
prevalence. -/
def cfgMismatch : Config :=
  ⟨1, (60, 10), (70, 15), (2, 2), some ["diabetes", "hypertension"],
   some [mkRat 1 5], 2, 5, none, 42⟩

/-- A valid configuration asking for zero samples. -/
def cfgZero : Config :=
  ⟨0, (60, 10), (70, 15), (2, 2), none, none, 2, 5, none, 42⟩

theorem stepBind_error {α β : Type} (e : GenError) (p : ℕ)
    (f : α → ℕ → Except GenError β × ℕ) :
    stepBind (Except.error e, p) f = (Except.error e, p) := rfl

theorem stepBind_ok {α β : Type} (a : α) (p : ℕ)
    (f : α → ℕ → Except GenError β × ℕ) :
    stepBind (Except.ok a, p) f = f a p := rfl

theorem stepBind_fst_ok {α β : Type} {x : Except GenError α × ℕ}
    {f : α → ℕ → Except GenError β × ℕ} {b : β}
    (h : (stepBind x f).1 = Except.ok b) :
    ∃ a p, x = (Except.ok a, p) ∧ (f a p).1 = Except.ok b := by
  obtain ⟨x1, p⟩ := x
  cases x1 with
  | error e => simp [stepBind] at h
  | ok a => exact ⟨a, p, rfl, h⟩

theorem npRandomNormal_ok (stdNorm : ℕ → ℕ → ℝ) (seed pos : ℕ) {n : ℤ}
    (hn : 0 ≤ n) :
    npRandomNormal stdNorm seed pos n =
      (Except.ok ((List.range n.toNat).map fun i => stdNorm seed (pos + i)),
       pos + n.toNat) := by
  unfold npRandomNormal
  rw [if_neg (not_lt.mpr hn)]

theorem normRvs_ok (stdNorm : ℕ → ℕ → ℝ) (seed pos : ℕ) (loc : ℚ)
    {scale : ℚ} {size : ℤ} (h1 : 0 ≤ scale) (h2 : 0 ≤ size) :
    normRvs stdNorm seed pos loc scale size =
      (Except.ok ((List.range size.toNat).map fun i =>
          stdNorm seed (pos + i) * (scale : ℝ) + (loc : ℝ)),
       pos + size.toNat) := by
  unfold normRvs
  rw [if_neg (not_lt.mpr h1), if_neg (not_lt.mpr h2)]

theorem gammaRvs_ok (gammaStd : ℚ → ℕ → ℕ → ℝ) (seed pos : ℕ) {a scale : ℚ}
    {size : ℤ} (h1 : 0 < a) (h2 : 0 ≤ scale) (h3 : 0 ≤ size) :
    gammaRvs gammaStd seed pos a scale size =
      (Except.ok ((List.range size.toNat).map fun i =>
          gammaStd a seed (pos + i) * (scale : ℝ)),
       pos + size.toNat) := by
  unfold gammaRvs
  rw [if_pos ⟨h1, h2⟩, if_neg (not_lt.mpr h3)]

theorem binomRvs_ok (bern : ℚ → ℕ → ℕ → ℝ) (seed pos : ℕ) {p : ℚ}
    {size : ℤ} (h1 : 0 ≤ p) (h2 : p ≤ 1) (h3 : 0 ≤ size) :
    binomRvs bern seed pos p size =
      (Except.ok ((List.range size.toNat).map fun i => bern p seed (pos + i)),
       pos + size.toNat) := by
  unfold binomRvs
  rw [if_pos ⟨h1, h2⟩, if_neg (not_lt.mpr h3)]

theorem npRandomNormal_fst_ok {stdNorm : ℕ → ℕ → ℝ} {seed pos : ℕ} {n : ℤ}
    {c : List ℝ} (h : (npRandomNormal stdNorm seed pos n).1 = Except.ok c) :
    0 ≤ n := by
  by_cases hn : n < 0
  · rw [npRandomNormal, if_pos hn] at h
    simp at h
  · exact not_lt.mp hn

theorem normRvs_fst_ok {stdNorm : ℕ → ℕ → ℝ} {seed pos : ℕ} {loc scale : ℚ}
    {size : ℤ} {c : List ℝ}
    (h : (normRvs stdNorm seed pos loc scale size).1 = Except.ok c) :
    0 ≤ scale ∧ 0 ≤ size := by
  by_cases h1 : scale < 0
  · rw [normRvs, if_pos h1] at h
    simp at h
  · by_cases h2 : size < 0
    · rw [normRvs, if_neg h1, if_pos h2] at h
      simp at h
    · exact ⟨not_lt.mp h1, not_lt.mp h2⟩

theorem gammaRvs_fst_ok {gammaStd : ℚ → ℕ → ℕ → ℝ} {seed pos : ℕ}
    {a scale : ℚ} {size : ℤ} {c : List ℝ}
    (h : (gammaRvs gammaStd seed pos a scale size).1 = Except.ok c) :
    (0 < a ∧ 0 ≤ scale) ∧ 0 ≤ size := by
  by_cases h1 : 0 < a ∧ 0 ≤ scale
  · by_cases h2 : size < 0
    · rw [gammaRvs, if_pos h1, if_pos h2] at h
      simp at h
    · exact ⟨h1, not_lt.mp h2⟩
  · rw [gammaRvs, if_neg h1] at h
    simp at h

theorem binomRvs_fst_ok {bern : ℚ → ℕ → ℕ → ℝ} {seed pos : ℕ} {p : ℚ}
    {size : ℤ} {c : List ℝ}
    (h : (binomRvs bern seed pos p size).1 = Except.ok c) :
    (0 ≤ p ∧ p ≤ 1) ∧ 0 ≤ size := by
  by_cases h1 : 0 ≤ p ∧ p ≤ 1
  · by_cases h2 : size < 0
    · rw [binomRvs, if_pos h1, if_pos h2] at h
      simp at h
    · exact ⟨h1, not_lt.mp h2⟩
  · rw [binomRvs, if_neg h1] at h
    simp at h

theorem dictInsert_fresh {d : List (String × List ℝ)} {k : String}
    (v : List ℝ) (h : k ∉ d.map Prod.fst) : dictInsert d k v = d ++ [(k, v)] := by
  unfold dictInsert
  rw [if_neg]
  simp only [List.any_eq_true, beq_iff_eq, not_exists, not_and]
  intro kv hkv hk
  exact h (List.mem_map.mpr ⟨kv, hkv, hk⟩)

theorem dictInsert_map_fst_fresh {d : List (String × List ℝ)} {k : String}
    (v : List ℝ) (h : k ∉ d.map Prod.fst) :
    (dictInsert d k v).map Prod.fst = d.map Prod.fst ++ [k] := by
  rw [dictInsert_fresh v h, List.map_append]
  rfl

theorem dictInsert_length {d : List (String × List ℝ)} {k : String}
    {v : List ℝ} {n : ℕ} (hd : ∀ kv ∈ d, (kv.2).length = n)
    (hv : v.length = n) : ∀ kv ∈ dictInsert d k v, (kv.2).length = n := by
  intro kv hkv
  unfold dictInsert at hkv
  split at hkv
  · obtain ⟨kv0, hkv0, heq⟩ := List.mem_map.mp hkv
    by_cases hb : kv0.1 == k
    · rw [if_pos hb] at heq
      rw [← heq]
      exact hv
    · rw [if_neg hb] at heq
      rw [← heq]
      exact hd kv0 hkv0
  · rcases List.mem_append.mp hkv with hmem | hmem
    · exact hd kv hmem
    · rw [List.mem_singleton.mp hmem]
      exact hv

theorem dictInsert_mem_self (d : List (String × List ℝ)) (k : String)
    (v : List ℝ) : k ∈ (dictInsert d k v).map Prod.fst := by
  unfold dictInsert
  by_cases h : (d.any fun kv => kv.1 == k) = true
  · rw [if_pos h]
    obtain ⟨kv, hkv, hb⟩ := List.any_eq_true.mp h
    refine List.mem_map.mpr ⟨(k, v), List.mem_map.mpr ⟨kv, hkv, ?_⟩, rfl⟩
    rw [if_pos hb]
  · rw [if_neg h]
    simp

theorem dictInsert_mem_mono {d : List (String × List ℝ)} (k : String)
    (v : List ℝ) {a : String} (h : a ∈ d.map Prod.fst) :
    a ∈ (dictInsert d k v).map Prod.fst := by
  by_cases hak : a = k
  · rw [hak]
    exact dictInsert_mem_self d k v
  · unfold dictInsert
    split
    · obtain ⟨kv, hkv, hfst⟩ := List.mem_map.mp h
      refine List.mem_map.mpr ⟨if kv.1 == k then (k, v) else kv,
        List.mem_map.mpr ⟨kv, hkv, rfl⟩, ?_⟩
      rw [if_neg]
      · exact hfst
      · rw [hfst]
        simpa using hak
    · rw [List.map_append]
      exact List.mem_append_left _ h

theorem dictInsert_not_mem {d : List (String × List ℝ)} {k : String}
    (v : List ℝ) {x : String} (hx : x ∉ d.map Prod.fst) (hk : x ≠ k) :
    x ∉ (dictInsert d k v).map Prod.fst := by
  unfold dictInsert
  split
  · intro hmem
    obtain ⟨kv, hkv, hfst⟩ := List.mem_map.mp hmem
    obtain ⟨kv0, hkv0, heq⟩ := List.mem_map.mp hkv
    by_cases hb : kv0.1 == k
    · rw [if_pos hb] at heq
      rw [← heq] at hfst
      exact hk hfst.symm
    · rw [if_neg hb] at heq
      rw [← heq] at hfst
      exact hx (List.mem_map.mpr ⟨kv0, hkv0, hfst⟩)
  · rw [List.map_append]
    intro hmem
    rcases List.mem_append.mp hmem with hmem | hmem
    · exact hx hmem
    · simp at hmem
      exact hk hmem

theorem getD_map_range {f : ℕ → ℝ} {n i : ℕ} (h : i < n) :
    ((List.range n).map f).getD i 0 = f i := by
  rw [List.getD_eq_getElem?_getD, List.getElem?_map, List.getElem?_range h]
  rfl

theorem generate_correlated_variables_ok (stdNorm : ℕ → ℕ → ℝ)
    (seed pos : ℕ) {n : ℤ} (hn : 0 ≤ n) (m1 s1 m2 s2 c : ℝ) :
    generate_correlated_variables stdNorm seed pos n m1 s1 m2 s2 c =
      (Except.ok
        ((List.range n.toNat).map (fun i => stdNorm seed (pos + i) * s1 + m1),
         (List.range n.toNat).map (fun i =>
           (c * stdNorm seed (pos + i) +
             Real.sqrt (1 - c ^ 2) * stdNorm seed (pos + n.toNat + i)) * s2 +
           m2)),
       pos + n.toNat + n.toNat) := by
  unfold generate_correlated_variables
  rw [npRandomNormal_ok stdNorm seed pos hn, stepBind_ok,
      npRandomNormal_ok stdNorm seed (pos + n.toNat) hn, stepBind_ok,
      List.zipWith_map, List.zipWith_same, List.map_map, List.map_map]
  rfl

theorem addComorbidities_spec (bern : ℚ → ℕ → ℕ → ℝ) (seed : ℕ) {size : ℤ}
    (hsize : 0 ≤ size) :
    ∀ (pairs : List (String × ℚ)) (d : List (String × List ℝ)) (pos : ℕ),
      (∀ pr ∈ pairs, 0 ≤ pr.2 ∧ pr.2 ≤ 1) →
      ∃ d2 pos2,
        addComorbidities bern seed size pairs d pos = (Except.ok d2, pos2)
        ∧ ((∀ kv ∈ d, (kv.2).length = size.toNat) →
            ∀ kv ∈ d2, (kv.2).length = size.toNat)
        ∧ (((pairs.map Prod.fst).Nodup ∧
             ∀ q ∈ pairs.map Prod.fst, q ∉ d.map Prod.fst) →
            d2.map Prod.fst = d.map Prod.fst ++ pairs.map Prod.fst)
        ∧ (∀ a ∈ d.map Prod.fst, a ∈ d2.map Prod.fst)
        ∧ (∀ x, x ∉ d.map Prod.fst → x ∉ pairs.map Prod.fst →
            x ∉ d2.map Prod.fst) := by
  intro pairs
  induction pairs with
  | nil =>
      intro d pos _
      refine ⟨d, pos, rfl, fun h => h, ?_, fun a h => h, fun x hx _ => hx⟩
      intro _
      simp
  | cons hd tl ih =>
      intro d pos hvalid
      obtain ⟨name, p⟩ := hd
      have hp := hvalid (name, p) (List.mem_cons_self _ _)
      have hstep : addComorbidities bern seed size ((name, p) :: tl) d pos =
          stepBind (binomRvs bern seed pos p size) (fun col pos2 =>
            addComorbidities bern seed size tl (dictInsert d name col) pos2) :=
        rfl
      rw [hstep, binomRvs_ok bern seed pos hp.1 hp.2 hsize, stepBind_ok]
      obtain ⟨d2, pos2, heq, hlen, hnames, hmono, habs⟩ :=
        ih (dictInsert d name
            ((List.range size.toNat).map fun i => bern p seed (pos + i)))
          (pos + size.toNat)
          (fun pr hpr => hvalid pr (List.mem_cons_of_mem _ hpr))
      refine ⟨d2, pos2, heq, ?_, ?_, ?_, ?_⟩
      · intro hd'
        exact hlen (dictInsert_length hd' (by simp))
      · rintro ⟨hnodup, hfresh⟩
        simp only [List.map_cons, List.nodup_cons] at hnodup
        have hname_fresh : name ∉ d.map Prod.fst := hfresh name (by simp)
        have hrest : d2.map Prod.fst =
            (dictInsert d name
              ((List.range size.toNat).map fun i =>
                bern p seed (pos + i))).map Prod.fst ++ tl.map Prod.fst := by
          refine hnames ⟨hnodup.2, ?_⟩
          intro q hq
          rw [dictInsert_map_fst_fresh _ hname_fresh]
          intro hmem
          rcases List.mem_append.mp hmem with hmem | hmem
          · exact hfresh q (List.mem_cons_of_mem _ (by simpa using hq)) hmem
          · rw [List.mem_singleton.mp hmem] at hq
            exact hnodup.1 hq
        rw [hrest, dictInsert_map_fst_fresh _ hname_fresh, List.append_assoc]
        simp
      · intro a ha
        exact hmono a (dictInsert_mem_mono name _ ha)
      · intro x hx hxtl
        simp only [List.map_cons, List.mem_cons, not_or] at hxtl
        exact habs x (dictInsert_not_mem _ hx hxtl.1) hxtl.2

theorem addComorbidities_fst_ok {bern : ℚ → ℕ → ℕ → ℝ} {seed : ℕ}
    {size : ℤ} :
    ∀ {pairs : List (String × ℚ)} {d : List (String × List ℝ)} {pos : ℕ}
      {d2 : List (String × List ℝ)},
      (addComorbidities bern seed size pairs d pos).1 = Except.ok d2 →
      ∀ pr ∈ pairs, 0 ≤ pr.2 ∧ pr.2 ≤ 1 := by
  intro pairs
  induction pairs with
  | nil =>
      intro d pos d2 _ pr hpr
      simp at hpr
  | cons hd tl ih =>
      intro d pos d2 h pr hpr
      obtain ⟨name, p⟩ := hd
      have hstep : addComorbidities bern seed size ((name, p) :: tl) d pos =
          stepBind (binomRvs bern seed pos p size) (fun col pos2 =>
            addComorbidities bern seed size tl (dictInsert d name col) pos2) :=
        rfl
      rw [hstep] at h
      obtain ⟨col, pos2, hx, hrest⟩ := stepBind_fst_ok h
      rcases List.mem_cons.mp hpr with heq | hmem
      · have hb := binomRvs_fst_ok (congrArg Prod.fst hx)
        rw [heq]
        exact hb.1
      · exact ih hrest pr hmem

theorem map_fst_zip_take {α β : Type} :
    ∀ (l1 : List α) (l2 : List β),
      (List.zip l1 l2).map Prod.fst = l1.take l2.length
  | [], _ => by simp
  | _ :: _, [] => by simp
  | a :: l1, b :: l2 => by simp [map_fst_zip_take l1 l2]

theorem tail_spec (gammaStd : ℚ → ℕ → ℕ → ℝ) (bern : ℚ → ℕ → ℕ → ℝ)
    (seed : ℕ) {n : ℤ} (hn : 0 ≤ n) {ss sc : ℚ} (hss : 0 < ss)
    (hsc : 0 ≤ sc) (pairs : List (String × ℚ))
    (hprev : ∀ pr ∈ pairs, 0 ≤ pr.2 ∧ pr.2 ≤ 1)
    (d1 : List (String × List ℝ)) (pos1 : ℕ) :
    ∃ out pos2,
      stepBind
        (stepBind (addComorbidities bern seed n pairs d1 pos1)
          (fun d pos =>
            stepBind (gammaRvs gammaStd seed pos ss sc n)
              (fun sv pos2 =>
                (Except.ok (dictInsert d "survival_time" sv), pos2))))
        (fun d pos =>
          stepBind (binomRvs bern seed pos (mkRat 3 10) n)
            (fun ev pos2 =>
              (Except.ok (dictInsert d "event_occurred" ev), pos2)))
      = (Except.ok out, pos2)
      ∧ ((∀ kv ∈ d1, (kv.2).length = n.toNat) →
          ∀ kv ∈ out, (kv.2).length = n.toNat)
      ∧ (((pairs.map Prod.fst).Nodup
           ∧ (∀ q ∈ pairs.map Prod.fst, q ∉ d1.map Prod.fst)
           ∧ "survival_time" ∉ d1.map Prod.fst
           ∧ "survival_time" ∉ pairs.map Prod.fst
           ∧ "event_occurred" ∉ d1.map Prod.fst
           ∧ "event_occurred" ∉ pairs.map Prod.fst) →
          out.map Prod.fst =
            (d1.map Prod.fst ++ pairs.map Prod.fst) ++
              ["survival_time", "event_occurred"])
      ∧ (∀ a ∈ d1.map Prod.fst, a ∈ out.map Prod.fst)
      ∧ (∀ x, x ∉ d1.map Prod.fst → x ∉ pairs.map Prod.fst →
          x ≠ "survival_time" → x ≠ "event_occurred" → x ∉ out.map Prod.fst)
      ∧ "event_occurred" ∈ out.map Prod.fst := by
  obtain ⟨d2, pos2, heq, hlen, hnames, hmono, habs⟩ :=
    addComorbidities_spec bern seed hn pairs d1 pos1 hprev
  rw [heq]
  simp only [stepBind_ok]
  rw [gammaRvs_ok gammaStd seed pos2 hss hsc hn]
  simp only [stepBind_ok]
  rw [binomRvs_ok bern seed (pos2 + n.toNat) (by decide) (by decide) hn]
  simp only [stepBind_ok]
  refine ⟨_, _, rfl, ?_, ?_, ?_, ?_, ?_⟩
  · intro hd1
    exact dictInsert_length (dictInsert_length (hlen hd1) (by simp)) (by simp)
  · rintro ⟨hnodup, hfresh, hs1, hs2, he1, he2⟩
    have h2 : d2.map Prod.fst = d1.map Prod.fst ++ pairs.map Prod.fst :=
      hnames ⟨hnodup, hfresh⟩
    have hsd2 : "survival_time" ∉ d2.map Prod.fst := by
      rw [h2]
      intro hmem
      rcases List.mem_append.mp hmem with hmem | hmem
      · exact hs1 hmem
      · exact hs2 hmem
    have hed2 : "event_occurred" ∉ d2.map Prod.fst := by
      rw [h2]
      intro hmem
      rcases List.mem_append.mp hmem with hmem | hmem
      · exact he1 hmem
      · exact he2 hmem
    rw [dictInsert_map_fst_fresh _ ?_, dictInsert_map_fst_fresh _ hsd2, h2,
        List.append_assoc, List.append_assoc]
    · simp
    · rw [dictInsert_map_fst_fresh _ hsd2]
      intro hmem
      rcases List.mem_append.mp hmem with hmem | hmem
      · exact hed2 hmem
      · simp at hmem
  · intro a ha
    exact dictInsert_mem_mono _ _ (dictInsert_mem_mono _ _ (hmono a ha))
  · intro x hx1 hx2 hx3 hx4
    exact dictInsert_not_mem _ (dictInsert_not_mem _ (habs x hx1 hx2) hx3) hx4
  · exact dictInsert_mem_self _ _ _


theorem nodup_parts {B P : List String} {l s e : String}
    (h : (B ++ l :: (P ++ [s, e])).Nodup) :
    B.Nodup ∧ P.Nodup ∧ l ∉ B ∧ l ∉ P ∧ (∀ q ∈ P, q ∉ B) ∧
    s ∉ B ∧ s ∉ P ∧ s ≠ l ∧ e ∉ B ∧ e ∉ P ∧ e ≠ l ∧ s ≠ e := by
  rw [List.nodup_append] at h
  obtain ⟨hB, hrest, hdisj⟩ := h
  rw [List.nodup_cons] at hrest
  obtain ⟨hl, hPse⟩ := hrest
  rw [List.nodup_append] at hPse
  obtain ⟨hP, hse, hdisj2⟩ := hPse
  have hse' : s ≠ e := by
    intro hmem
    rw [List.nodup_cons] at hse
    exact hse.1 (by simp [hmem])
  refine ⟨hB, hP, ?_, ?_, ?_, ?_, ?_, ?_, ?_, ?_, ?_, hse'⟩
  · intro hmem
    exact hdisj hmem (by simp)
  · intro hmem
    exact hl (List.mem_append_left _ hmem)
  · intro q hq hmem
    exact hdisj hmem (List.mem_cons_of_mem _ (List.mem_append_left _ hq))
  · intro hmem
    exact hdisj hmem
      (List.mem_cons_of_mem _ (List.mem_append_right _ (by simp)))
  · intro hmem
    exact hdisj2 hmem (by simp)
  · intro hmem
    rw [hmem] at hl
    exact hl (List.mem_append_right _ (by simp))
  · intro hmem
    exact hdisj hmem
      (List.mem_cons_of_mem _ (List.mem_append_right _ (by simp)))
  · intro hmem
    exact hdisj2 hmem (by simp)
  · intro hmem
    rw [hmem] at hl
    exact hl (List.mem_append_right _ (by simp))

theorem map_fst_insert3 (A W L : List ℝ) (k1 k2 k3 : String) (h12 : k2 ≠ k1)
    (h13 : k3 ≠ k1) (h23 : k3 ≠ k2) :
    (dictInsert (dictInsert (dictInsert [] k1 A) k2 W) k3 L).map Prod.fst =
      [k1, k2, k3] := by
  have e1 : (dictInsert ([] : List (String × List ℝ)) k1 A).map Prod.fst =
      [k1] := by
    rw [dictInsert_map_fst_fresh _ (by simp)]
    rfl
  have e2 : (dictInsert (dictInsert ([] : List (String × List ℝ)) k1 A) k2
      W).map Prod.fst = [k1, k2] := by
    rw [dictInsert_map_fst_fresh _ (by rw [e1]; simp [h12]), e1]
    rfl
  rw [dictInsert_map_fst_fresh _ (by rw [e2]; simp [h13, h23]), e2]
  rfl

theorem generate_body_spec (stdNorm : ℕ → ℕ → ℝ) (gammaStd : ℚ → ℕ → ℕ → ℝ)
    (bern : ℚ → ℕ → ℕ → ℝ) (seed : ℕ) (cfg : Config) (h : validConfig cfg) :
    ∃ out pos2,
      generate_body stdNorm gammaStd bern seed cfg = (Except.ok out, pos2)
      ∧ (∀ kv ∈ out, (kv.2).length = cfg.num_samples.toNat)
      ∧ ((expectedFields cfg).Nodup → out.map Prod.fst = expectedFields cfg)
      ∧ "event_occurred" ∈ out.map Prod.fst
      ∧ (∀ cv, cfg.correlated_vars = some cv →
           cv.name1 ∈ out.map Prod.fst ∧ cv.name2 ∈ out.map Prod.fst ∧
           ∀ x, x ≠ cv.name1 → x ≠ cv.name2 → x ≠ "length_of_stay" →
             x ≠ "survival_time" → x ≠ "event_occurred" →
             x ∉ (zipComorbs cfg).map Prod.fst → x ∉ out.map Prod.fst) := by
  obtain ⟨hn, haw, hlos1, hlos2, hss, hsc, hprev⟩ := h
  unfold generate_body
  rcases hcv : cfg.correlated_vars with _ | cv
  · simp only [hcv]
    rw [normRvs_ok stdNorm seed 0 cfg.age_params.1 (haw hcv).1 hn]
    simp only [stepBind_ok]
    rw [normRvs_ok stdNorm seed _ cfg.weight_params.1 (haw hcv).2 hn]
    simp only [stepBind_ok]
    rw [gammaRvs_ok gammaStd seed _ hlos1 hlos2 hn]
    simp only [stepBind_ok]
    obtain ⟨out, pos2, heq, hlen, hnames, hmono, habs, hev⟩ :=
      tail_spec gammaStd bern seed hn hss hsc (zipComorbs cfg) hprev _ _
    refine ⟨out, pos2, heq, ?_, ?_, hev, ?_⟩
    · refine hlen (dictInsert_length (dictInsert_length (dictInsert_length
        ?_ ?_) ?_) ?_)
      · intro kv hkv
        simp at hkv
      · simp
      · simp
      · simp
    · intro hnodup
      unfold expectedFields at hnodup ⊢
      simp only [hcv] at hnodup ⊢
      obtain ⟨hB, hP, hlB, hlP, hPB, hsB, hsP, hsl, heB, heP, hel, hsne⟩ :=
        nodup_parts hnodup
      have hcond : out.map Prod.fst = _ := hnames ⟨hP, ?_, ?_, hsP, ?_, heP⟩
      · rw [hcond,
          map_fst_insert3 _ _ _ "age" "weight" "length_of_stay"
            (by decide) (by decide) (by decide)]
        simp
      · intro q hq
        rw [map_fst_insert3 _ _ _ "age" "weight" "length_of_stay"
          (by decide) (by decide) (by decide)]
        intro hmem
        rcases (by simpa using hmem :
            q = "age" ∨ q = "weight" ∨ q = "length_of_stay") with h | h | h
        · exact hPB q hq (by simp [h])
        · exact hPB q hq (by simp [h])
        · exact hlP (h ▸ hq)
      · rw [map_fst_insert3 _ _ _ "age" "weight" "length_of_stay"
          (by decide) (by decide) (by decide)]
        intro hmem
        rcases (by simpa using hmem :
            "survival_time" = "age" ∨ "survival_time" = "weight" ∨
              "survival_time" = "length_of_stay") with h | h | h
        · exact hsB (by simp [h])
        · exact hsB (by simp [h])
        · exact hsl h
      · rw [map_fst_insert3 _ _ _ "age" "weight" "length_of_stay"
          (by decide) (by decide) (by decide)]
        intro hmem
        rcases (by simpa using hmem :
            "event_occurred" = "age" ∨ "event_occurred" = "weight" ∨
              "event_occurred" = "length_of_stay") with h | h | h
        · exact heB (by simp [h])
        · exact heB (by simp [h])
        · exact hel h
    · intro cv hc
      exact absurd hc (by simp)
  · simp only [hcv]
    rw [generate_correlated_variables_ok stdNorm seed 0 hn]
    simp only [stepBind_ok]
    rw [gammaRvs_ok gammaStd seed _ hlos1 hlos2 hn]
    simp only [stepBind_ok]
    obtain ⟨out, pos2, heq, hlen, hnames, hmono, habs, hev⟩ :=
      tail_spec gammaStd bern seed hn hss hsc (zipComorbs cfg) hprev _ _
    refine ⟨out, pos2, heq, ?_, ?_, hev, ?_⟩
    · refine hlen (dictInsert_length (dictInsert_length (dictInsert_length
        ?_ ?_) ?_) ?_)
      · intro kv hkv
        simp at hkv
      · simp
      · simp
      · simp
    · intro hnodup
      unfold expectedFields at hnodup ⊢
      simp only [hcv] at hnodup ⊢
      obtain ⟨hB, hP, hlB, hlP, hPB, hsB, hsP, hsl, heB, heP, hel, hsne⟩ :=
        nodup_parts hnodup
      have h12 : cv.name2 ≠ cv.name1 := by
        rw [List.nodup_cons] at hB
        intro hmm
        exact hB.1 (by simp [hmm])
      have h13 : "length_of_stay" ≠ cv.name1 := by
        intro hmm
        exact hlB (by simp [hmm])
      have h23 : "length_of_stay" ≠ cv.name2 := by
        intro hmm
        exact hlB (by simp [hmm])
      have hcond : out.map Prod.fst = _ := hnames ⟨hP, ?_, ?_, hsP, ?_, heP⟩
      · rw [hcond,
          map_fst_insert3 _ _ _ cv.name1 cv.name2 "length_of_stay" h12 h13 h23]
        simp
      · intro q hq
        rw [map_fst_insert3 _ _ _ cv.name1 cv.name2 "length_of_stay"
          h12 h13 h23]
        intro hmem
        rcases (by simpa using hmem :
            q = cv.name1 ∨ q = cv.name2 ∨ q = "length_of_stay") with h | h | h
        · exact hPB q hq (by simp [h])
        · exact hPB q hq (by simp [h])
        · exact hlP (h ▸ hq)
      · rw [map_fst_insert3 _ _ _ cv.name1 cv.name2 "length_of_stay"
          h12 h13 h23]
        intro hmem
        rcases (by simpa using hmem :
            "survival_time" = cv.name1 ∨ "survival_time" = cv.name2 ∨
              "survival_time" = "length_of_stay") with h | h | h
        · exact hsB (by simp [h])
        · exact hsB (by simp [h])
        · exact hsl h
      · rw [map_fst_insert3 _ _ _ cv.name1 cv.name2 "length_of_stay"
          h12 h13 h23]
        intro hmem
        rcases (by simpa using hmem :
            "event_occurred" = cv.name1 ∨ "event_occurred" = cv.name2 ∨
              "event_occurred" = "length_of_stay") with h | h | h
        · exact heB (by simp [h])
        · exact heB (by simp [h])
        · exact hel h
    · intro cv' hc
      have hcc : cv' = cv := (Option.some.inj hc).symm
      subst hcc
      refine ⟨?_, ?_, ?_⟩
      · exact hmono _ (dictInsert_mem_mono _ _
          (dictInsert_mem_mono _ _ (dictInsert_mem_self _ _ _)))
      · exact hmono _ (dictInsert_mem_mono _ _ (dictInsert_mem_self _ _ _))
      · intro x hx1 hx2 hx3 hx4 hx5 hx6
        refine habs x ?_ hx6 hx4 hx5
        refine dictInsert_not_mem _ ?_ hx3
        refine dictInsert_not_mem _ ?_ hx2
        refine dictInsert_not_mem _ ?_ hx1
        simp

theorem generate_synthetic_data_spec (stdNorm : ℕ → ℕ → ℝ)
    (gammaStd : ℚ → ℕ → ℕ → ℝ) (bern : ℚ → ℕ → ℕ → ℝ) (g : ℕ × ℕ)
    (cfg : Config) (h : validConfig cfg) :
    ∃ out pos2,
      generate_synthetic_data stdNorm gammaStd bern g cfg =
        (Except.ok out, (cfg.random_seed, pos2))
      ∧ (∀ kv ∈ out, (kv.2).length = cfg.num_samples.toNat)
      ∧ ((expectedFields cfg).Nodup → out.map Prod.fst = expectedFields cfg)
      ∧ "event_occurred" ∈ out.map Prod.fst
      ∧ (∀ cv, cfg.correlated_vars = some cv →
           cv.name1 ∈ out.map Prod.fst ∧ cv.name2 ∈ out.map Prod.fst ∧
           ∀ x, x ≠ cv.name1 → x ≠ cv.name2 → x ≠ "length_of_stay" →
             x ≠ "survival_time" → x ≠ "event_occurred" →
             x ∉ (zipComorbs cfg).map Prod.fst → x ∉ out.map Prod.fst) := by
  obtain ⟨out, pos2, heq, h1, h2, h3, h4⟩ :=
    generate_body_spec stdNorm gammaStd bern cfg.random_seed cfg h
  refine ⟨out, pos2, ?_, h1, h2, h3, h4⟩
  unfold generate_synthetic_data npSeed
  rw [heq]

theorem generate_body_fst_ok {stdNorm : ℕ → ℕ → ℝ}
    {gammaStd : ℚ → ℕ → ℕ → ℝ} {bern : ℚ → ℕ → ℕ → ℝ} {seed : ℕ}
    {cfg : Config} {out : List (String × List ℝ)}
    (h : (generate_body stdNorm gammaStd bern seed cfg).1 = Except.ok out) :
    validConfig cfg := by
  unfold generate_body at h
  obtain ⟨d3, p3, he3, h3⟩ := stepBind_fst_ok h
  obtain ⟨d2, p2, he2, h2⟩ := stepBind_fst_ok (congrArg Prod.fst he3)
  obtain ⟨d1, p1, he1, h1⟩ := stepBind_fst_ok (congrArg Prod.fst he2)
  obtain ⟨d0, p0, he0, h0⟩ := stepBind_fst_ok (congrArg Prod.fst he1)
  obtain ⟨los, pl, hel, hl⟩ := stepBind_fst_ok h0
  obtain ⟨sv, ps, hes, hs⟩ := stepBind_fst_ok h2
  have hgl := gammaRvs_fst_ok (congrArg Prod.fst hel)
  have hgs := gammaRvs_fst_ok (congrArg Prod.fst hes)
  have hcom := addComorbidities_fst_ok h1
  refine ⟨?_, ?_, hgl.1.1, hgl.1.2, hgs.1.1, hgs.1.2, hcom⟩
  · exact hgl.2
  · intro hcv
    simp only [hcv] at he0
    obtain ⟨ageRaw, pa, hea, ha⟩ := stepBind_fst_ok (congrArg Prod.fst he0)
    obtain ⟨wcol, pw, hew, hw⟩ := stepBind_fst_ok ha
    have hna := normRvs_fst_ok (congrArg Prod.fst hea)
    have hnw := normRvs_fst_ok (congrArg Prod.fst hew)
    exact ⟨hna.1, hnw.1⟩

theorem generate_fst_ok {stdNorm : ℕ → ℕ → ℝ} {gammaStd : ℚ → ℕ → ℕ → ℝ}
    {bern : ℚ → ℕ → ℕ → ℝ} {g : ℕ × ℕ} {cfg : Config}
    {out : List (String × List ℝ)}
    (h : (generate_synthetic_data stdNorm gammaStd bern g cfg).1 =
      Except.ok out) : validConfig cfg :=
  generate_body_fst_ok h

theorem take_min {α : Type} (l1 : List α) (k : ℕ) :
    l1.take k = l1.take (min l1.length k) := by
  rcases le_total k l1.length with h | h
  · rw [min_eq_right h]
  · rw [min_eq_left h, List.take_of_length_le h, List.take_length]

/-- Claim C1: for every sample count n at least 0, means, standard
deviations and correlation rho in the unit interval, the correlated-pair
generator succeeds and returns two sequences of length n given exactly by
v1 i = x1 i * std1 + mean1 and
v2 i = (rho * x1 i + sqrt(1 - rho ^ 2) * x2 i) * std2 + mean2, where x1
and x2 are the two consecutive blocks of n independent standard-normal
draws taken from the stream. -/
theorem c1_correlated_pair (stdNorm : ℕ → ℕ → ℝ) (seed pos : ℕ) {n : ℤ}
    (hn : 0 ≤ n) (mean1 std1 mean2 std2 rho : ℝ) (hr1 : -1 ≤ rho)
    (hr2 : rho ≤ 1) :
    ∃ v1 v2 pos2,
      generate_correlated_variables stdNorm seed pos n mean1 std1 mean2 std2
        rho = (Except.ok (v1, v2), pos2)
      ∧ v1.length = n.toNat ∧ v2.length = n.toNat
      ∧ ∀ i, i < n.toNat →
          v1.getD i 0 = stdNorm seed (pos + i) * std1 + mean1
          ∧ v2.getD i 0 =
            (rho * stdNorm seed (pos + i) +
              Real.sqrt (1 - rho ^ 2) * stdNorm seed (pos + n.toNat + i)) *
              std2 + mean2 := by
  rw [generate_correlated_variables_ok stdNorm seed pos hn]
  refine ⟨_, _, _, rfl, by simp, by simp, ?_⟩
  intro i hi
  constructor
  · rw [getD_map_range hi]
  · rw [getD_map_range hi]

/-- Witness for C1 at n = 1, mean1 = 0, std1 = 1, mean2 = 0, std2 = 1 and
rho = 0 on the degenerate stream. -/
theorem c1_witness :
    (0 : ℤ) ≤ 1 ∧ (-1 : ℝ) ≤ 0 ∧ (0 : ℝ) ≤ 1 ∧
    ∃ v1 v2 pos2,
      generate_correlated_variables zeroNorm 0 0 1 0 1 0 1 0 =
        (Except.ok (v1, v2), pos2)
      ∧ v1.length = (1 : ℤ).toNat ∧ v2.length = (1 : ℤ).toNat
      ∧ ∀ i, i < (1 : ℤ).toNat →
          v1.getD i 0 = zeroNorm 0 (0 + i) * 1 + 0
          ∧ v2.getD i 0 =
            ((0 : ℝ) * zeroNorm 0 (0 + i) +
              Real.sqrt (1 - (0 : ℝ) ^ 2) * zeroNorm 0 (0 + (1 : ℤ).toNat + i))
              * 1 + 0 :=
  ⟨by norm_num, by norm_num, by norm_num,
   c1_correlated_pair zeroNorm 0 0 (by norm_num) 0 1 0 1 0 (by norm_num)
     (by norm_num)⟩

/-- Claim C7: the correlated-pair generator accepts rho = 1 and rho = -1
without error for any non-negative sample count, and the output is
perfectly correlated, respectively anticorrelated: with std1 positive,
v2 i = (v1 i - mean1) / std1 * std2 + mean2 for rho = 1 and
v2 i = -((v1 i - mean1) / std1) * std2 + mean2 for rho = -1. -/
theorem c7_extreme_correlation (stdNorm : ℕ → ℕ → ℝ) (seed pos : ℕ)
    {n : ℤ} (hn : 0 ≤ n) (mean1 mean2 std2 : ℝ) {std1 : ℝ}
    (hs : 0 < std1) :
    (∃ v1 v2 pos2,
       generate_correlated_variables stdNorm seed pos n mean1 std1 mean2 std2
         1 = (Except.ok (v1, v2), pos2)
       ∧ ∀ i, i < n.toNat →
           v2.getD i 0 = (v1.getD i 0 - mean1) / std1 * std2 + mean2)
    ∧ (∃ v1 v2 pos2,
       generate_correlated_variables stdNorm seed pos n mean1 std1 mean2 std2
         (-1) = (Except.ok (v1, v2), pos2)
       ∧ ∀ i, i < n.toNat →
           v2.getD i 0 = -((v1.getD i 0 - mean1) / std1) * std2 + mean2) := by
  constructor
  · rw [generate_correlated_variables_ok stdNorm seed pos hn]
    refine ⟨_, _, _, rfl, ?_⟩
    intro i hi
    rw [getD_map_range hi, getD_map_range hi,
      show (1 : ℝ) - 1 ^ 2 = 0 by norm_num, Real.sqrt_zero]
    field_simp
  · rw [generate_correlated_variables_ok stdNorm seed pos hn]
    refine ⟨_, _, _, rfl, ?_⟩
    intro i hi
    rw [getD_map_range hi, getD_map_range hi,
      show (1 : ℝ) - (-1) ^ 2 = 0 by norm_num, Real.sqrt_zero]
    field_simp

/-- Witness for C7 at n = 1, std1 = 1 on the degenerate stream. -/
theorem c7_witness :
    (0 : ℤ) ≤ 1 ∧ (0 : ℝ) < 1 ∧
    ((∃ v1 v2 pos2,
       generate_correlated_variables zeroNorm 0 0 1 5 1 7 2 1 =
         (Except.ok (v1, v2), pos2)
       ∧ ∀ i, i < (1 : ℤ).toNat →
           v2.getD i 0 = (v1.getD i 0 - 5) / 1 * 2 + 7)
    ∧ (∃ v1 v2 pos2,
       generate_correlated_variables zeroNorm 0 0 1 5 1 7 2 (-1) =
         (Except.ok (v1, v2), pos2)
       ∧ ∀ i, i < (1 : ℤ).toNat →
           v2.getD i 0 = -((v1.getD i 0 - 5) / 1) * 2 + 7)) :=
  ⟨by norm_num, by norm_num,
   c7_extreme_correlation zeroNorm 0 0 (by norm_num) 5 7 2 (by norm_num)⟩

/-- Claim C4: for a fixed configuration, including its seed, generation is
deterministic: the incoming global generator state is overwritten by the
np.random.seed reset, so two calls with identical configuration return
identical tables and identical final generator states. -/
theorem c4_deterministic (stdNorm : ℕ → ℕ → ℝ) (gammaStd : ℚ → ℕ → ℕ → ℝ)
    (bern : ℚ → ℕ → ℕ → ℝ) (cfg : Config) (g g' : ℕ × ℕ) :
    generate_synthetic_data stdNorm gammaStd bern g cfg =
      generate_synthetic_data stdNorm gammaStd bern g' cfg := rfl

/-- Claim C3: for every configuration in the validity domain the scipy
calls enforce, generation succeeds and returns a non-empty table in which
every field, whether the correlated pair or age and weight, length of
stay, survival time, the event indicator or any comorbidity column, is a
sequence of exactly num_samples entries, so the table has exactly
num_samples rows. -/
theorem c3_row_count (stdNorm : ℕ → ℕ → ℝ) (gammaStd : ℚ → ℕ → ℕ → ℝ)
    (bern : ℚ → ℕ → ℕ → ℝ) (g : ℕ × ℕ) (cfg : Config)
    (hv : validConfig cfg) :
    ∃ out pos2,
      generate_synthetic_data stdNorm gammaStd bern g cfg =
        (Except.ok out, (cfg.random_seed, pos2))
      ∧ out ≠ []
      ∧ ∀ kv ∈ out, (kv.2).length = cfg.num_samples.toNat := by
  obtain ⟨out, pos2, heq, h1, _, hev, _⟩ :=
    generate_synthetic_data_spec stdNorm gammaStd bern g cfg hv
  refine ⟨out, pos2, heq, ?_, h1⟩
  intro hnil
  rw [hnil] at hev
  simp at hev

/-- Witness for C3 at the default one-sample configuration. -/
theorem c3_witness :
    validConfig cfgDefault ∧
    ∃ out pos2,
      generate_synthetic_data zeroNorm zeroGamma oneBern (0, 0) cfgDefault =
        (Except.ok out, (cfgDefault.random_seed, pos2))
      ∧ out ≠ []
      ∧ ∀ kv ∈ out, (kv.2).length = cfgDefault.num_samples.toNat :=
  ⟨by decide,
   c3_row_count zeroNorm zeroGamma oneBern (0, 0) cfgDefault (by decide)⟩

/-- Claim C2 as amended: a configuration with an out-of-domain parameter
makes generation raise an error and return no table, but the error is
raised by the offending sampler call at the point of use, not by an
up-front validation pass. -/
theorem c2_invalid_parameters (stdNorm : ℕ → ℕ → ℝ)
    (gammaStd : ℚ → ℕ → ℕ → ℝ) (bern : ℚ → ℕ → ℕ → ℝ) (g : ℕ × ℕ)
    (cfg : Config) (hinv : ¬ validConfig cfg) :
    ∃ e, (generate_synthetic_data stdNorm gammaStd bern g cfg).1 =
      Except.error e := by
  cases hx : (generate_synthetic_data stdNorm gammaStd bern g cfg).1 with
  | error e => exact ⟨e, rfl⟩
  | ok out => exact absurd (generate_fst_ok hx) hinv

/-- Witness for the amended C2 at the zero survival shape configuration. -/
theorem c2_witness :
    ¬ validConfig cfgBadSurvivalShape ∧
    ∃ e, (generate_synthetic_data zeroNorm zeroGamma oneBern (0, 0)
      cfgBadSurvivalShape).1 = Except.error e :=
  ⟨by decide,
   c2_invalid_parameters zeroNorm zeroGamma oneBern (0, 0)
     cfgBadSurvivalShape (by decide)⟩

/-- Counterexample to C2 as stated: with the survival gamma shape set to
the invalid value 0 and one sample requested, the call does fail, but only
at the survival-time sampler, after the global stream has already consumed
six draws for age, weight, length of stay and the three default
comorbidities, so the error is not raised before any sampling occurs; and
a survival gamma scale of 0, although non-positive, is accepted by scipy
and produces a table. -/
theorem c2_counterexample :
    generate_synthetic_data zeroNorm zeroGamma oneBern (0, 0)
        cfgBadSurvivalShape =
      (Except.error GenError.domainError, (42, 6))
    ∧ (6 : ℕ) ≠ 0
    ∧ resultFields (generate_synthetic_data zeroNorm zeroGamma oneBern (0, 0)
        cfgZeroSurvivalScale).1 =
      some ["age", "weight", "length_of_stay", "diabetes", "hypertension",
        "cancer", "survival_time", "event_occurred"] :=
  ⟨rfl, by decide, rfl⟩

/-- Claim C6 as amended: name collisions never raise an error; whenever
the distribution parameters are valid, generation succeeds even if a
comorbidity name equals a reserved field name, a correlated-pair field
name or another comorbidity name, and the colliding column silently
overwrites the earlier column of that name, keeping its field position. -/
theorem c6_no_conflict_error (stdNorm : ℕ → ℕ → ℝ)
    (gammaStd : ℚ → ℕ → ℕ → ℝ) (bern : ℚ → ℕ → ℕ → ℝ) (g : ℕ × ℕ)
    (cfg : Config) (hv : validConfig cfg) :
    ∃ out pos2,
      generate_synthetic_data stdNorm gammaStd bern g cfg =
        (Except.ok out, (cfg.random_seed, pos2)) := by
  obtain ⟨out, pos2, heq, _⟩ :=
    generate_synthetic_data_spec stdNorm gammaStd bern g cfg hv
  exact ⟨out, pos2, heq⟩

/-- Witness for the amended C6 at the configuration whose comorbidity is
named length_of_stay. -/
theorem c6_witness :
    validConfig cfgComorbClash ∧
    ∃ out pos2,
      generate_synthetic_data zeroNorm zeroGamma oneBern (0, 0)
        cfgComorbClash =
        (Except.ok out, (cfgComorbClash.random_seed, pos2)) :=
  ⟨by decide,
   c6_no_conflict_error zeroNorm zeroGamma oneBern (0, 0) cfgComorbClash
     (by decide)⟩

/-- Counterexample to C6 as stated: a configuration whose single
comorbidity is named length_of_stay does not raise any error; the call
returns a table whose header is the five reserved fields only, and the
length_of_stay column now holds the Bernoulli comorbidity draw (the value
1 of the degenerate Bernoulli stream, not the value 0 every gamma draw
takes on the degenerate gamma stream), showing the comorbidity overwrote
the reserved column in place. -/
theorem c6_counterexample :
    resultFields (generate_synthetic_data zeroNorm zeroGamma oneBern (0, 0)
        cfgComorbClash).1 =
      some ["age", "weight", "length_of_stay", "survival_time",
        "event_occurred"]
    ∧ resultColumn "length_of_stay"
        (generate_synthetic_data zeroNorm zeroGamma oneBern (0, 0)
          cfgComorbClash).1 = some [1] :=
  ⟨rfl, rfl⟩

/-- Claim C5 as amended: in src/tools/generate_data.py the fields appear
in the order correlated pair (or age then weight), then length_of_stay,
then the comorbidities in configured order, then survival_time, then
event_occurred; the claimed order, with survival_time and event_occurred
before the comorbidities, is instead the one produced by the legacy script
src/generate_synthetic_medical_data.py. -/
theorem c5_field_order (stdNorm : ℕ → ℕ → ℝ) (gammaStd : ℚ → ℕ → ℕ → ℝ)
    (bern : ℚ → ℕ → ℕ → ℝ) (g : ℕ × ℕ) (cfg : Config)
    (hv : validConfig cfg) (hnodup : (expectedFields cfg).Nodup) :
    (∃ out pos2,
       generate_synthetic_data stdNorm gammaStd bern g cfg =
         (Except.ok out, (cfg.random_seed, pos2))
       ∧ out.map Prod.fst =
           (match cfg.correlated_vars with
            | some cv => [cv.name1, cv.name2]
            | none => ["age", "weight"]) ++
           "length_of_stay" :: ((zipComorbs cfg).map Prod.fst ++
             ["survival_time", "event_occurred"]))
    ∧ resultFields (Legacy.generate_synthetic_data zeroNorm zeroGamma oneBern
        (0, 0) 1 (60, 10) (70, 15) (2, 2) none none 2 5 42).1 =
      some ["age", "weight", "length_of_stay", "survival_time",
        "event_occurred", "diabetes", "hypertension", "cancer"] := by
  constructor
  · obtain ⟨out, pos2, heq, _, h2, _, _⟩ :=
      generate_synthetic_data_spec stdNorm gammaStd bern g cfg hv
    exact ⟨out, pos2, heq, h2 hnodup⟩
  · rfl

/-- Witness for the amended C5 at the default one-sample configuration. -/
theorem c5_witness :
    validConfig cfgDefault ∧ (expectedFields cfgDefault).Nodup ∧
    ((∃ out pos2,
       generate_synthetic_data zeroNorm zeroGamma oneBern (0, 0) cfgDefault =
         (Except.ok out, (cfgDefault.random_seed, pos2))
       ∧ out.map Prod.fst =
           (match cfgDefault.correlated_vars with
            | some cv => [cv.name1, cv.name2]
            | none => ["age", "weight"]) ++
           "length_of_stay" :: ((zipComorbs cfgDefault).map Prod.fst ++
             ["survival_time", "event_occurred"]))
    ∧ resultFields (Legacy.generate_synthetic_data zeroNorm zeroGamma oneBern
        (0, 0) 1 (60, 10) (70, 15) (2, 2) none none 2 5 42).1 =
      some ["age", "weight", "length_of_stay", "survival_time",
        "event_occurred", "diabetes", "hypertension", "cancer"]) :=
  ⟨by decide, by decide,
   c5_field_order zeroNorm zeroGamma oneBern (0, 0) cfgDefault (by decide)
     (by decide)⟩

/-- Counterexample to C5 as stated: at the default configuration the tools
generator emits the comorbidity columns before survival_time and
event_occurred, which differs from the claimed field order. -/
theorem c5_counterexample :
    resultFields (generate_synthetic_data zeroNorm zeroGamma oneBern (0, 0)
        cfgDefault).1 =
      some ["age", "weight", "length_of_stay", "diabetes", "hypertension",
        "cancer", "survival_time", "event_occurred"]
    ∧ some ["age", "weight", "length_of_stay", "diabetes", "hypertension",
        "cancer", "survival_time", "event_occurred"] ≠
      some ["age", "weight", "length_of_stay", "survival_time",
        "event_occurred", "diabetes", "hypertension", "cancer"] :=
  ⟨rfl, by decide⟩

/-- Claim C8: when a correlated-pair specification is present, the two
configured names are fields of the output and, provided neither reserved
name is reused as a pair or comorbidity name, no independently sampled age
or weight column appears: the pair replaces age and weight entirely. -/
theorem c8_pair_replaces_age_weight (stdNorm : ℕ → ℕ → ℝ)
    (gammaStd : ℚ → ℕ → ℕ → ℝ) (bern : ℚ → ℕ → ℕ → ℝ) (g : ℕ × ℕ)
    (cfg : Config) {cv : CorrVarSpec} (hv : validConfig cfg)
    (hcv : cfg.correlated_vars = some cv)
    (ha1 : "age" ≠ cv.name1) (ha2 : "age" ≠ cv.name2)
    (haC : "age" ∉ (zipComorbs cfg).map Prod.fst)
    (hw1 : "weight" ≠ cv.name1) (hw2 : "weight" ≠ cv.name2)
    (hwC : "weight" ∉ (zipComorbs cfg).map Prod.fst) :
    ∃ out pos2,
      generate_synthetic_data stdNorm gammaStd bern g cfg =
        (Except.ok out, (cfg.random_seed, pos2))
      ∧ cv.name1 ∈ out.map Prod.fst ∧ cv.name2 ∈ out.map Prod.fst
      ∧ "age" ∉ out.map Prod.fst ∧ "weight" ∉ out.map Prod.fst := by
  obtain ⟨out, pos2, heq, _, _, _, h4⟩ :=
    generate_synthetic_data_spec stdNorm gammaStd bern g cfg hv
  obtain ⟨hm1, hm2, habs⟩ := h4 cv hcv
  exact ⟨out, pos2, heq, hm1, hm2,
    habs _ ha1 ha2 (by decide) (by decide) (by decide) haC,
    habs _ hw1 hw2 (by decide) (by decide) (by decide) hwC⟩

/-- Witness for C8 at the one-sample configuration requesting the
correlated pair sbp and dbp. -/
theorem c8_witness :
    validConfig cfgPair ∧
    ∃ out pos2,
      generate_synthetic_data zeroNorm zeroGamma oneBern (0, 0) cfgPair =
        (Except.ok out, (cfgPair.random_seed, pos2))
      ∧ "sbp" ∈ out.map Prod.fst ∧ "dbp" ∈ out.map Prod.fst
      ∧ "age" ∉ out.map Prod.fst ∧ "weight" ∉ out.map Prod.fst :=
  ⟨by decide,
   c8_pair_replaces_age_weight zeroNorm zeroGamma oneBern (0, 0) cfgPair
     (by decide) rfl (by decide) (by decide) (by decide) (by decide)
     (by decide) (by decide)⟩

/-- Claim C9: a zero sample count is not an error: generation succeeds,
every column of the returned table is empty (zero rows, with the
configured field set when the names are collision free), and the
correlated-pair generator at n = 0 returns two empty sequences. -/
theorem c9_zero_samples (stdNorm : ℕ → ℕ → ℝ) (gammaStd : ℚ → ℕ → ℕ → ℝ)
    (bern : ℚ → ℕ → ℕ → ℝ) (g : ℕ × ℕ) (cfg : Config)
    (hv : validConfig cfg) (h0 : cfg.num_samples = 0) :
    (∃ out pos2,
       generate_synthetic_data stdNorm gammaStd bern g cfg =
         (Except.ok out, (cfg.random_seed, pos2))
       ∧ (∀ kv ∈ out, (kv.2).length = 0)
       ∧ ((expectedFields cfg).Nodup →
           out.map Prod.fst = expectedFields cfg))
    ∧ ∀ (seed pos : ℕ) (m1 s1 m2 s2 c : ℝ),
        generate_correlated_variables stdNorm seed pos 0 m1 s1 m2 s2 c =
          (Except.ok ([], []), pos) := by
  constructor
  · obtain ⟨out, pos2, heq, h1, h2, _, _⟩ :=
      generate_synthetic_data_spec stdNorm gammaStd bern g cfg hv
    refine ⟨out, pos2, heq, ?_, h2⟩
    intro kv hkv
    have hx := h1 kv hkv
    rw [h0] at hx
    simpa using hx
  · intro seed pos m1 s1 m2 s2 c
    rw [generate_correlated_variables_ok stdNorm seed pos (le_refl 0)]
    simp

/-- Witness for C9 at the zero-sample default configuration. -/
theorem c9_witness :
    validConfig cfgZero ∧ cfgZero.num_samples = 0 ∧
    ((∃ out pos2,
       generate_synthetic_data zeroNorm zeroGamma oneBern (0, 0) cfgZero =
         (Except.ok out, (cfgZero.random_seed, pos2))
       ∧ (∀ kv ∈ out, (kv.2).length = 0)
       ∧ ((expectedFields cfgZero).Nodup →
           out.map Prod.fst = expectedFields cfgZero))
    ∧ ∀ (seed pos : ℕ) (m1 s1 m2 s2 c : ℝ),
        generate_correlated_variables zeroNorm seed pos 0 m1 s1 m2 s2 c =
          (Except.ok ([], []), pos)) :=
  ⟨by decide, rfl,
   c9_zero_samples zeroNorm zeroGamma oneBern (0, 0) cfgZero (by decide) rfl⟩

/-- Claim C10: when the comorbidity name and prevalence lists have
different lengths, generation does not fail; exactly the first
min(names, prevalences) pairs yield comorbidity columns and the surplus
entries of the longer list are silently dropped by the zip. -/
theorem c10_zip_mismatch (stdNorm : ℕ → ℕ → ℝ) (gammaStd : ℚ → ℕ → ℕ → ℝ)
    (bern : ℚ → ℕ → ℕ → ℝ) (g : ℕ × ℕ) (cfg : Config)
    (hv : validConfig cfg) (hnodup : (expectedFields cfg).Nodup)
    {names : List String} {prevs : List ℚ}
    (hnames : cfg.comorbidity_list = some names)
    (hprevs : cfg.comorbidity_prevalences = some prevs)
    (hdiff : names.length ≠ prevs.length) :
    ∃ out pos2,
      generate_synthetic_data stdNorm gammaStd bern g cfg =
        (Except.ok out, (cfg.random_seed, pos2))
      ∧ out.map Prod.fst =
          (match cfg.correlated_vars with
           | some cv => [cv.name1, cv.name2]
           | none => ["age", "weight"]) ++
          "length_of_stay" :: (names.take (min names.length prevs.length) ++
            ["survival_time", "event_occurred"]) := by
  obtain ⟨out, pos2, heq, _, h2, _, _⟩ :=
    generate_synthetic_data_spec stdNorm gammaStd bern g cfg hv
  refine ⟨out, pos2, heq, ?_⟩
  rw [h2 hnodup]
  unfold expectedFields zipComorbs comorbNames comorbPrevs
  rw [hnames, hprevs]
  simp only [Option.getD_some]
  rw [map_fst_zip_take, ← take_min]

/-- Witness for C10 at the configuration with two comorbidity names and a
single prevalence. -/
theorem c10_witness :
    validConfig cfgMismatch ∧ (expectedFields cfgMismatch).Nodup ∧
    (2 : ℕ) ≠ 1 ∧
    ∃ out pos2,
      generate_synthetic_data zeroNorm zeroGamma oneBern (0, 0) cfgMismatch =
        (Except.ok out, (cfgMismatch.random_seed, pos2))
      ∧ out.map Prod.fst =
          (match cfgMismatch.correlated_vars with
           | some cv => [cv.name1, cv.name2]
           | none => ["age", "weight"]) ++
          "length_of_stay" ::
            ((["diabetes", "hypertension"] : List String).take
              (min (["diabetes", "hypertension"] : List String).length
                ([mkRat 1 5] : List ℚ).length) ++
            ["survival_time", "event_occurred"]) :=
  ⟨by decide, by decide, by decide,
   c10_zip_mismatch zeroNorm zeroGamma oneBern (0, 0) cfgMismatch (by decide)
     (by decide) rfl rfl (by decide)⟩
